import Mathlib

/-!
# Verification of the pricing engine of the 3D-printing quote backend

Shallow embedding of `src/backend/services/pricing_service.py`.

Python `float` values are modelled as exact rationals (`ℚ`): every constant in
the source (0.05, 5.00, 0.10, 0.20, 1.5, ...) is exactly representable, and the
algorithm is straight-line arithmetic, so the rational model is the ideal-number
reading of the code that the spec's invariants are about.

Python dictionaries with heterogeneous (`Any`) values are modelled as
association lists of `PyVal`, a small Python-value type (number, string,
boolean, None), so that defaulted lookups (`dict.get(k, default)`) and
`TypeError`s raised by arithmetic on non-numeric values — the exception channel
caught by `calculate_comprehensive_quote`'s `try/except` — are faithfully
representable.  Fallible steps of the `try:` block live in `Except String`;
the surrounding handler is `calculate_comprehensive_quote` itself.
-/

namespace PricingSpec

/-! ## Python-value model -/

/-- A Python value as it may occur in the `analysis_data` /
`additional_options` dictionaries passed to the pricing engine. -/
inductive PyVal where
  | num (q : ℚ)
  | str (s : String)
  | bool (b : Bool)
  | none
deriving DecidableEq, Repr

/-- Numeric reading of a Python value, as used by Python's arithmetic and
comparison operators: numbers are themselves, `bool` is an `int` subclass
(`True = 1`, `False = 0`), everything else is not a number. -/
def pyNum? : PyVal → Option ℚ
  | .num q => some q
  | .bool b => some (if b then 1 else 0)
  | _ => Option.none

/-- Python truthiness (`if v:`): `0`, `""`, `False` and `None` are falsy. -/
def pyTruthy : PyVal → Bool
  | .num q => decide (q ≠ 0)
  | .str s => decide (s ≠ "")
  | .bool b => b
  | .none => false

/-- A Python dictionary with string keys (association list, first match). -/
def PyDict := List (String × PyVal)

/-- Python `d.get(k, default)`: the stored value if the key is present, else
the default. -/
def pyGet (d : PyDict) (k : String) (default : PyVal) : PyVal :=
  (List.lookup k d).getD default

/-- Python `v * c` for a dictionary value `v` and a float constant `c`;
raises `TypeError` when `v` is not numeric. -/
def pyMulValFloat (v : PyVal) (c : ℚ) : Except String ℚ :=
  match pyNum? v with
  | some x => .ok (x * c)
  | Option.none => .error "unsupported operand type(s) for *"

/-- Python `c * v` for a float `c` and a dictionary value `v`;
raises `TypeError` when `v` is not numeric. -/
def pyMulFloatVal (c : ℚ) (v : PyVal) : Except String ℚ :=
  match pyNum? v with
  | some x => .ok (c * x)
  | Option.none => .error "unsupported operand type(s) for *"

/-- Python `v / c` for a dictionary value `v` and a nonzero float constant
`c`; raises `TypeError` when `v` is not numeric. -/
def pyDivValFloat (v : PyVal) (c : ℚ) : Except String ℚ :=
  match pyNum? v with
  | some x => .ok (x / c)
  | Option.none => .error "unsupported operand type(s) for /"

/-- Python `v >= c` for a dictionary value `v` and a numeric constant `c`;
raises `TypeError` when `v` is not numeric. -/
def pyGeValNum (v : PyVal) (c : ℚ) : Except String Bool :=
  match pyNum? v with
  | some x => .ok (decide (c ≤ x))
  | Option.none => .error "not supported between instances of non-numeric and number"

/-- Substring test on character lists (Python `pat in hay` for strings). -/
def listContainsSub (pat : List Char) : List Char → Bool
  | [] => pat.isEmpty
  | c :: t => pat.isPrefixOf (c :: t) || listContainsSub pat t

/-- Python `pat in hay` for strings: substring containment. -/
def strContainsSub (hay pat : String) : Bool :=
  listContainsSub pat.toList hay.toList

/-- Python `s.upper()`.  Defined over the character list (Lean's
`Char.toUpper` per character); the catalog keys and all inputs of interest
are ASCII, where this agrees with Python's Unicode-aware `str.upper`. -/
def pyUpper (s : String) : String :=
  String.mk (s.data.map Char.toUpper)

/-! ## The pricing engine -/

/-- One entry of `PricingEngine._material_catalog`. -/
structure MaterialInfo where
  cost_per_gram : ℚ
  density : ℚ
  available : Bool
  machine_cost_multiplier : ℚ
deriving DecidableEq, Repr

/-- State of the `PricingEngine` object after `__init__`: the material
catalog (an insertion-ordered dict, modelled as an ordered association list)
and the pricing configuration. -/
structure PricingEngine where
  material_catalog : List (String × MaterialInfo)
  machine_cost_per_hour : ℚ
  overhead_rate : ℚ
  profit_margin : ℚ
deriving DecidableEq, Repr

/-- The constants set by `PricingEngine.__init__`
(`src/backend/services/pricing_service.py`, lines 30-62), with the catalog in
its Python insertion order PLA, ABS, PETG, TPU. -/
def PricingEngine.init : PricingEngine where
  material_catalog :=
    [ ("PLA",  { cost_per_gram := 0.05, density := 1.24, available := true,
                 machine_cost_multiplier := 1.0 }),
      ("ABS",  { cost_per_gram := 0.07, density := 1.04, available := true,
                 machine_cost_multiplier := 1.2 }),
      ("PETG", { cost_per_gram := 0.08, density := 1.27, available := true,
                 machine_cost_multiplier := 1.15 }),
      ("TPU",  { cost_per_gram := 0.15, density := 1.21, available := true,
                 machine_cost_multiplier := 1.5 }) ]
  machine_cost_per_hour := 5.00
  overhead_rate := 0.10
  profit_margin := 0.20

/-- First catalog key (in catalog order) that is a substring of the
normalized input — the `for catalog_key in self._material_catalog.keys():`
loop with its early `return`. -/
def firstKeyMatch (material_upper : String) : List String → Option String
  | [] => Option.none
  | k :: rest =>
      if strContainsSub material_upper k then some k
      else firstKeyMatch material_upper rest

/-- The method `PricingEngine._normalize_material_type` (lines 202-220):
uppercase, exact catalog-key match, else first substring match in catalog
order, else the `"PLA"` default. -/
def normalize_material_type (e : PricingEngine) (material_type : String) : String :=
  let material_upper := pyUpper material_type
  if (List.lookup material_upper e.material_catalog).isSome then material_upper
  else
    match firstKeyMatch material_upper (e.material_catalog.map Prod.fst) with
    | some k => k
    | Option.none => "PLA"

/-- One entry of the `breakdown_details` list.  The `description` field of the
source — a formatted display string (`f'... ({filament_grams:.1f}g)'`) — is
presentation-only and carries no claimed behaviour, so it is not modelled. -/
structure BreakdownLine where
  category : String
  quantity : PyVal
  unitPrice : ℚ
  total : ℚ
deriving DecidableEq, Repr

/-- The `QuoteResult` dataclass (lines 11-22), with its Python field
defaults. -/
structure QuoteResult where
  success : Bool := true
  material_cost : ℚ := 0
  time_cost : ℚ := 0
  complexity_adjustment : ℚ := 0
  overhead_cost : ℚ := 0
  profit_margin : ℚ := 0
  subtotal : ℚ := 0
  total_cost : ℚ := 0
  breakdown_details : Option (List BreakdownLine) := Option.none
  error_message : Option String := Option.none
deriving DecidableEq, Repr

/-- The body of the `try:` block of `calculate_comprehensive_quote`
(lines 76-194), step for step.  `Except String` carries a Python exception. -/
def calcBody (e : PricingEngine) (analysis_data : PyDict) (material_type : String)
    (additional_options : Option PyDict) : Except String QuoteResult := do
  -- `if additional_options is None: additional_options = {}`
  let opts : PyDict := additional_options.getD []
  -- Extract analysis data (`.get` with defaults)
  let filament_grams := pyGet analysis_data "filament_used_grams" (.num 50.0)
  let print_time_minutes := pyGet analysis_data "print_time_minutes" (.num 120.0)
  let complexity_score := pyGet analysis_data "complexity_score" (.num 50)
  -- Normalize material type to a key in the catalog
  let material_key := normalize_material_type e material_type
  -- `self._material_catalog.get(material_key, self._material_catalog['PLA'])`:
  -- the default argument is evaluated eagerly and raises `KeyError` if absent
  let pla ← match List.lookup "PLA" e.material_catalog with
            | some i => pure i
            | Option.none => throw "KeyError: PLA"
  let material_info := (List.lookup material_key e.material_catalog).getD pla
  -- `material_cost = filament_grams * material_info['cost_per_gram']`
  let material_cost ← pyMulValFloat filament_grams material_info.cost_per_gram
  -- `material_info.get('machine_cost_multiplier', 1.0)`: always present here
  let machine_cost_multiplier := material_info.machine_cost_multiplier
  -- `time_cost = (print_time_minutes / 60.0) * rate * multiplier`
  let print_time_hours ← pyDivValFloat print_time_minutes 60.0
  let time_cost := print_time_hours * e.machine_cost_per_hour * machine_cost_multiplier
  -- `complexity_factor = complexity_score / 50.0`
  let complexity_factor ← pyDivValFloat complexity_score 50.0
  let complexity_adjustment := time_cost * (complexity_factor - 1.0) * 0.2
  -- Quantity adjustments
  let quantity := pyGet opts "quantity" (.num 1)
  let quantity_discount : ℚ ←
    (do
      let b10 ← pyGeValNum quantity 10
      if b10 then pure 0.10
      else do
        let b5 ← pyGeValNum quantity 5
        if b5 then pure 0.05 else pure 0)
  -- `rush_multiplier = 1.5 if additional_options.get('rush_order', False) else 1.0`
  let rush_order := pyTruthy (pyGet opts "rush_order" (.bool false))
  let rush_multiplier : ℚ := if rush_order then 1.5 else 1.0
  -- `base_cost = material_cost + time_cost + complexity_adjustment`
  let base_cost := material_cost + time_cost + complexity_adjustment
  -- `subtotal = base_cost * quantity * (1 - quantity_discount)`
  let base_times_qty ← pyMulFloatVal base_cost quantity
  let subtotal := base_times_qty * (1 - quantity_discount)
  -- `rush_surcharge = (time_cost * quantity * (rush_multiplier - 1)) if rush else 0`
  let rush_surcharge : ℚ ←
    if rush_order then do
      let time_times_qty ← pyMulFloatVal time_cost quantity
      pure (time_times_qty * (rush_multiplier - 1))
    else pure 0
  -- `overhead_cost = subtotal * self._overhead_rate`
  let overhead_cost := subtotal * e.overhead_rate
  -- `subtotal_with_overhead = subtotal + overhead_cost + rush_surcharge`
  let subtotal_with_overhead := subtotal + overhead_cost + rush_surcharge
  -- `profit_margin = subtotal_with_overhead * self._profit_margin`
  let profit_margin := subtotal_with_overhead * e.profit_margin
  -- `total_cost = subtotal_with_overhead + profit_margin`
  let total_cost := subtotal_with_overhead + profit_margin
  -- Detailed breakdown: Materials and Production always
  let mat_total ← pyMulFloatVal material_cost quantity
  let prod_total ← pyMulFloatVal time_cost quantity
  let lines0 : List BreakdownLine :=
    [ { category := "Materials", quantity := quantity,
        unitPrice := material_cost, total := mat_total },
      { category := "Production", quantity := quantity,
        unitPrice := time_cost, total := prod_total } ]
  -- Rush order line iff rush
  let lines1 :=
    if pyTruthy (pyGet opts "rush_order" (.bool false)) then
      lines0 ++ [ { category := "Surcharges", quantity := .num 1,
                    unitPrice := rush_surcharge, total := rush_surcharge } ]
    else lines0
  -- Complexity line iff `abs(complexity_adjustment) > 0.5`
  let lines2 ←
    if |complexity_adjustment| > 0.5 then do
      let cplx_total ← pyMulFloatVal complexity_adjustment quantity
      pure (lines1 ++ [ { category := "Adjustments", quantity := quantity,
                          unitPrice := complexity_adjustment, total := cplx_total } ])
    else pure lines1
  -- Discount line iff `quantity_discount > 0`
  let lines3 ←
    if quantity_discount > 0 then do
      let base_qty ← pyMulFloatVal base_cost quantity
      let discount_amount := base_qty * quantity_discount
      pure (lines2 ++ [ { category := "Discounts", quantity := .num 1,
                          unitPrice := -discount_amount, total := -discount_amount } ])
    else pure lines2
  pure { success := true
         material_cost := material_cost
         time_cost := time_cost
         complexity_adjustment := complexity_adjustment
         overhead_cost := overhead_cost
         profit_margin := profit_margin
         subtotal := subtotal
         total_cost := total_cost
         breakdown_details := some lines3
         error_message := Option.none }

/-- The method `PricingEngine.calculate_comprehensive_quote` (lines 68-200):
the `try:` body plus the `except` handler that converts any exception into a
`success=False` result with a descriptive message. -/
def calculate_comprehensive_quote (e : PricingEngine) (analysis_data : PyDict)
    (material_type : String) (additional_options : Option PyDict) : QuoteResult :=
  match calcBody e analysis_data material_type additional_options with
  | .ok r => r
  | .error msg =>
      { success := false
        error_message := some ("Pricing calculation failed: " ++ msg) }

/-! ## Auxiliary definitions for the verification -/

/-- The quote computed on numeric inputs, step for step as in the source:
`fv`, `tv`, `sv`, `qv` are the numeric readings of the four dictionary values
the engine reads, `qraw` the raw quantity value (stored verbatim in the
breakdown lines), `rush` the truthiness of `rush_order`.  The lemma
`calculate_eq_quoteResultOf` proves that `calculate_comprehensive_quote`
coincides with it whenever those four values are numeric. -/
def quoteResultOf (info : MaterialInfo) (machine_rate orate prate : ℚ)
    (fv tv sv qv : ℚ) (qraw : PyVal) (rush : Bool) : QuoteResult :=
  let material_cost := fv * info.cost_per_gram
  let time_cost := tv / 60.0 * machine_rate * info.machine_cost_multiplier
  let complexity_adjustment := time_cost * (sv / 50.0 - 1.0) * 0.2
  let quantity_discount : ℚ := if 10 ≤ qv then 0.10 else if 5 ≤ qv then 0.05 else 0
  let rush_multiplier : ℚ := if rush then 1.5 else 1.0
  let base_cost := material_cost + time_cost + complexity_adjustment
  let subtotal := base_cost * qv * (1 - quantity_discount)
  let rush_surcharge : ℚ := if rush then time_cost * qv * (rush_multiplier - 1) else 0
  let overhead_cost := subtotal * orate
  let subtotal_with_overhead := subtotal + overhead_cost + rush_surcharge
  let profit_margin := subtotal_with_overhead * prate
  let total_cost := subtotal_with_overhead + profit_margin
  let lines0 : List BreakdownLine :=
    [ { category := "Materials", quantity := qraw,
        unitPrice := material_cost, total := material_cost * qv },
      { category := "Production", quantity := qraw,
        unitPrice := time_cost, total := time_cost * qv } ]
  let lines1 :=
    if rush then
      lines0 ++ [ { category := "Surcharges", quantity := .num 1,
                    unitPrice := rush_surcharge, total := rush_surcharge } ]
    else lines0
  let lines2 :=
    if |complexity_adjustment| > 0.5 then
      lines1 ++ [ { category := "Adjustments", quantity := qraw,
                    unitPrice := complexity_adjustment,
                    total := complexity_adjustment * qv } ]
    else lines1
  let lines3 :=
    if quantity_discount > 0 then
      lines2 ++ [ { category := "Discounts", quantity := .num 1,
                    unitPrice := -(base_cost * qv * quantity_discount),
                    total := -(base_cost * qv * quantity_discount) } ]
    else lines2
  { success := true
    material_cost := material_cost
    time_cost := time_cost
    complexity_adjustment := complexity_adjustment
    overhead_cost := overhead_cost
    profit_margin := profit_margin
    subtotal := subtotal
    total_cost := total_cost
    breakdown_details := some lines3
    error_message := Option.none }

/-- The PLA catalog entry of `PricingEngine.__init__`. -/
def plaProfile : MaterialInfo :=
  { cost_per_gram := 0.05, density := 1.24, available := true,
    machine_cost_multiplier := 1.0 }

/-- The material-resolution rule as the spec words it: the uppercased input
when it equals a catalog key; otherwise the first catalog key in catalog
order PLA, ABS, PETG, TPU whose name is a substring of the uppercased input;
otherwise the `"PLA"` default. -/
def resolveSpec (s : String) : String :=
  let u := pyUpper s
  if u = "PLA" ∨ u = "ABS" ∨ u = "PETG" ∨ u = "TPU" then u
  else if strContainsSub u "PLA" then "PLA"
  else if strContainsSub u "ABS" then "ABS"
  else if strContainsSub u "PETG" then "PETG"
  else if strContainsSub u "TPU" then "TPU"
  else "PLA"

/-- Python `round(x, 2)` applied to an exact rational, without the decimal
scale: round half to even on the integers. -/
def roundHalfEven (x : ℚ) : ℤ :=
  if x - ⌊x⌋ < 1/2 then ⌊x⌋
  else if x - ⌊x⌋ > 1/2 then ⌊x⌋ + 1
  else if 2 ∣ ⌊x⌋ then ⌊x⌋ else ⌊x⌋ + 1

/-- Rounding of a monetary value to 2 decimal places at the response
boundary (Python `round(x, 2)`, banker's rounding; no value considered here
sits on a half-cent tie). -/
def round2 (x : ℚ) : ℚ := (roundHalfEven (x * 100) : ℚ) / 100

/-- The analysis dictionary of the spec's end-to-end scenario:
50 g of filament, 120 minutes of print time, complexity 65. -/
def scenarioAnalysis : PyDict :=
  [("filament_used_grams", .num 50.0), ("print_time_minutes", .num 120),
   ("complexity_score", .num 65)]

/-- The options dictionary of the spec's end-to-end scenario:
quantity 1, no rush. -/
def scenarioOptions : PyDict :=
  [("quantity", .num 1), ("rush_order", .bool false)]

/-- An analysis dictionary carrying the three numeric fields the engine
reads. -/
def analysisOf (fv tv sv : ℚ) : PyDict :=
  [("filament_used_grams", .num fv), ("print_time_minutes", .num tv),
   ("complexity_score", .num sv)]

/-- An options dictionary carrying a numeric quantity and a rush flag. -/
def optionsOf (qv : ℚ) (r : Bool) : PyDict :=
  [("quantity", .num qv), ("rush_order", .bool r)]

/-! ## Supporting lemmas -/

lemma exceptOk_bind {α β : Type} (x : α) (f : α → Except String β) :
    (Except.ok x : Except String α) >>= f = f x := rfl

lemma exceptErr_bind {α β : Type} (msg : String) (f : α → Except String β) :
    (Except.error msg : Except String α) >>= f = Except.error msg := rfl

lemma exceptPure_bind {α β : Type} (x : α) (f : α → Except String β) :
    (pure x : Except String α) >>= f = f x := rfl

lemma ite_bind {α β : Type} (c : Prop) [Decidable c] (x y : Except String α)
    (f : α → Except String β) :
    (if c then x else y) >>= f = if c then x >>= f else y >>= f := by
  split <;> rfl

/-- Whenever the four dictionary values the engine reads are numeric, the
quote is exactly the straight-line arithmetic `quoteResultOf`. -/
lemma calculate_eq_quoteResultOf
    (e : PricingEngine) (a : PyDict) (m : String) (o : Option PyDict)
    (pla : MaterialInfo)
    (hpla : List.lookup "PLA" e.material_catalog = some pla)
    (fv tv sv qv : ℚ)
    (hf : pyNum? (pyGet a "filament_used_grams" (.num 50.0)) = some fv)
    (ht : pyNum? (pyGet a "print_time_minutes" (.num 120.0)) = some tv)
    (hs : pyNum? (pyGet a "complexity_score" (.num 50)) = some sv)
    (hq : pyNum? (pyGet (o.getD []) "quantity" (.num 1)) = some qv) :
    calculate_comprehensive_quote e a m o =
      quoteResultOf
        ((List.lookup (normalize_material_type e m) e.material_catalog).getD pla)
        e.machine_cost_per_hour e.overhead_rate e.profit_margin
        fv tv sv qv (pyGet (o.getD []) "quantity" (.num 1))
        (pyTruthy (pyGet (o.getD []) "rush_order" (.bool false))) := by
  unfold calculate_comprehensive_quote calcBody quoteResultOf
  simp only [hpla, pyMulValFloat, pyDivValFloat, pyGeValNum, pyMulFloatVal,
    hf, ht, hs, hq, exceptOk_bind, exceptErr_bind, exceptPure_bind, ite_bind,
    decide_eq_true_eq]
  split_ifs <;> rfl

lemma lookup_PLA_init :
    List.lookup "PLA" PricingEngine.init.material_catalog = some plaProfile := rfl

/-- A successful quote forces the four dictionary values the engine reads to
be numeric (a non-numeric value raises inside the `try:` block, which ends in
the `success=False` result instead). -/
lemma success_typed (a : PyDict) (m : String) (o : Option PyDict)
    (h : (calculate_comprehensive_quote PricingEngine.init a m o).success = true) :
    ∃ fv tv sv qv : ℚ,
      pyNum? (pyGet a "filament_used_grams" (.num 50.0)) = some fv ∧
      pyNum? (pyGet a "print_time_minutes" (.num 120.0)) = some tv ∧
      pyNum? (pyGet a "complexity_score" (.num 50)) = some sv ∧
      pyNum? (pyGet (o.getD []) "quantity" (.num 1)) = some qv := by
  rcases hf : pyNum? (pyGet a "filament_used_grams" (.num 50.0)) with _ | fv
  · exfalso
    unfold calculate_comprehensive_quote calcBody at h
    simp only [lookup_PLA_init, pyMulValFloat, pyDivValFloat, pyGeValNum, pyMulFloatVal,
      hf, exceptOk_bind, exceptErr_bind, exceptPure_bind, ite_bind] at h
    exact Bool.false_ne_true h
  · rcases ht : pyNum? (pyGet a "print_time_minutes" (.num 120.0)) with _ | tv
    · exfalso
      unfold calculate_comprehensive_quote calcBody at h
      simp only [lookup_PLA_init, pyMulValFloat, pyDivValFloat, pyGeValNum, pyMulFloatVal,
        hf, ht, exceptOk_bind, exceptErr_bind, exceptPure_bind, ite_bind] at h
      exact Bool.false_ne_true h
    · rcases hs : pyNum? (pyGet a "complexity_score" (.num 50)) with _ | sv
      · exfalso
        unfold calculate_comprehensive_quote calcBody at h
        simp only [lookup_PLA_init, pyMulValFloat, pyDivValFloat, pyGeValNum, pyMulFloatVal,
          hf, ht, hs, exceptOk_bind, exceptErr_bind, exceptPure_bind, ite_bind] at h
        exact Bool.false_ne_true h
      · rcases hq : pyNum? (pyGet (o.getD []) "quantity" (.num 1)) with _ | qv
        · exfalso
          unfold calculate_comprehensive_quote calcBody at h
          simp only [lookup_PLA_init, pyMulValFloat, pyDivValFloat, pyGeValNum, pyMulFloatVal,
            hf, ht, hs, hq, exceptOk_bind, exceptErr_bind, exceptPure_bind, ite_bind] at h
          exact Bool.false_ne_true h
        · exact ⟨fv, tv, sv, qv, rfl, rfl, rfl, rfl⟩

lemma norm_PLA : normalize_material_type PricingEngine.init "PLA" = "PLA" := by decide

/-- The characterization, specialized to the dictionary builders. -/
lemma calculate_on_builders (fv tv sv qv : ℚ) (r : Bool) (m : String) :
    calculate_comprehensive_quote PricingEngine.init (analysisOf fv tv sv) m
      (some (optionsOf qv r)) =
    quoteResultOf
      ((List.lookup (normalize_material_type PricingEngine.init m)
          PricingEngine.init.material_catalog).getD plaProfile)
      5.00 0.10 0.20 fv tv sv qv (.num qv) r := by
  rw [calculate_eq_quoteResultOf PricingEngine.init (analysisOf fv tv sv) m
    (some (optionsOf qv r)) plaProfile lookup_PLA_init fv tv sv qv rfl rfl rfl rfl]
  rfl

/-- Every material profile the engine can resolve has a nonnegative
cost-per-gram and machine multiplier. -/
lemma info_bounds (s : String) :
    0 ≤ ((List.lookup s PricingEngine.init.material_catalog).getD plaProfile).cost_per_gram ∧
    0 ≤ ((List.lookup s PricingEngine.init.material_catalog).getD plaProfile).machine_cost_multiplier := by
  cases e1 : s == "PLA" <;> cases e2 : s == "ABS" <;> cases e3 : s == "PETG" <;>
    cases e4 : s == "TPU" <;>
    simp [List.lookup, PricingEngine.init, e1, e2, e3, e4, plaProfile] <;> norm_num

/-! ## The claims -/

/-- Claim C1 (invariants): whenever `calculate_comprehensive_quote` returns a
result with `success = true`, the result's fields satisfy
`total_cost = subtotal_with_overhead + profit_margin` and
`subtotal_with_overhead = subtotal + overhead_cost + rush_surcharge`, with
`subtotal = base_cost * quantity * (1 - quantity_discount)`,
`base_cost = material_cost + time_cost + complexity_adjustment`,
`overhead_cost = subtotal * 0.10` and
`profit_margin = subtotal_with_overhead * 0.20`, where `quantity` is the
numeric reading of the quantity option, `quantity_discount` its step
discount, and `rush_surcharge` is `time_cost * quantity * 0.5` on rush
orders and `0` otherwise. -/
theorem quote_totals_invariant (a : PyDict) (m : String) (o : Option PyDict)
    (h : (calculate_comprehensive_quote PricingEngine.init a m o).success = true) :
    ∃ qv : ℚ,
      pyNum? (pyGet (o.getD []) "quantity" (.num 1)) = some qv ∧
      (let res := calculate_comprehensive_quote PricingEngine.init a m o
       let rush_surcharge : ℚ :=
         if pyTruthy (pyGet (o.getD []) "rush_order" (.bool false)) then
           res.time_cost * qv * (1.5 - 1) else 0
       let quantity_discount : ℚ :=
         if 10 ≤ qv then 0.10 else if 5 ≤ qv then 0.05 else 0
       let subtotal_with_overhead := res.subtotal + res.overhead_cost + rush_surcharge
       res.total_cost = subtotal_with_overhead + res.profit_margin ∧
       res.profit_margin = subtotal_with_overhead * 0.20 ∧
       res.overhead_cost = res.subtotal * 0.10 ∧
       res.subtotal = (res.material_cost + res.time_cost + res.complexity_adjustment)
         * qv * (1 - quantity_discount)) := by
  obtain ⟨fv, tv, sv, qv, hf, ht, hs, hq⟩ := success_typed a m o h
  refine ⟨qv, hq, ?_⟩
  rw [calculate_eq_quoteResultOf PricingEngine.init a m o plaProfile lookup_PLA_init
    fv tv sv qv hf ht hs hq]
  simp only [quoteResultOf, PricingEngine.init]
  split_ifs <;> exact ⟨by ring, by ring, trivial, trivial⟩

/-- Witness for C1: the invariant instantiated on the end-to-end scenario
input, whose quote succeeds. -/
theorem quote_totals_invariant_witness :
    (calculate_comprehensive_quote PricingEngine.init scenarioAnalysis "PLA"
        (some scenarioOptions)).success = true ∧
    (∃ qv : ℚ,
      pyNum? (pyGet ((some scenarioOptions).getD []) "quantity" (.num 1)) = some qv ∧
      (let res := calculate_comprehensive_quote PricingEngine.init scenarioAnalysis "PLA"
          (some scenarioOptions)
       let rush_surcharge : ℚ :=
         if pyTruthy (pyGet ((some scenarioOptions).getD []) "rush_order" (.bool false)) then
           res.time_cost * qv * (1.5 - 1) else 0
       let quantity_discount : ℚ :=
         if 10 ≤ qv then 0.10 else if 5 ≤ qv then 0.05 else 0
       let subtotal_with_overhead := res.subtotal + res.overhead_cost + rush_surcharge
       res.total_cost = subtotal_with_overhead + res.profit_margin ∧
       res.profit_margin = subtotal_with_overhead * 0.20 ∧
       res.overhead_cost = res.subtotal * 0.10 ∧
       res.subtotal = (res.material_cost + res.time_cost + res.complexity_adjustment)
         * qv * (1 - quantity_discount))) := by
  have hsucc : (calculate_comprehensive_quote PricingEngine.init scenarioAnalysis "PLA"
      (some scenarioOptions)).success = true := by
    rw [calculate_eq_quoteResultOf PricingEngine.init scenarioAnalysis "PLA"
      (some scenarioOptions) plaProfile lookup_PLA_init 50.0 120 65 1 rfl rfl rfl rfl]
    rfl
  exact ⟨hsucc, quote_totals_invariant scenarioAnalysis "PLA" (some scenarioOptions) hsucc⟩

/-- Claim C2 (functional correctness): on the end-to-end scenario — 50 g of
filament, 120 minutes, complexity 65, material PLA, quantity 1, no rush,
machine rate 5.00/hr, overhead 0.10, margin 0.20 — the engine returns
`material_cost = 2.50`, `time_cost = 10.00`, `complexity_adjustment = 0.60`,
`base_cost = 13.10`, `subtotal = 13.10`, `overhead_cost = 1.31`,
`subtotal_with_overhead = 14.41`, `profit_margin = 2.882` and
`total_cost = 17.292 ≈ 17.29`. -/
theorem end_to_end_scenario_quote :
    (calculate_comprehensive_quote PricingEngine.init scenarioAnalysis "PLA"
        (some scenarioOptions)).success = true ∧
    (calculate_comprehensive_quote PricingEngine.init scenarioAnalysis "PLA"
        (some scenarioOptions)).material_cost = 2.50 ∧
    (calculate_comprehensive_quote PricingEngine.init scenarioAnalysis "PLA"
        (some scenarioOptions)).time_cost = 10.00 ∧
    (calculate_comprehensive_quote PricingEngine.init scenarioAnalysis "PLA"
        (some scenarioOptions)).complexity_adjustment = 0.60 ∧
    (calculate_comprehensive_quote PricingEngine.init scenarioAnalysis "PLA"
        (some scenarioOptions)).material_cost +
      (calculate_comprehensive_quote PricingEngine.init scenarioAnalysis "PLA"
        (some scenarioOptions)).time_cost +
      (calculate_comprehensive_quote PricingEngine.init scenarioAnalysis "PLA"
        (some scenarioOptions)).complexity_adjustment = 13.10 ∧
    (calculate_comprehensive_quote PricingEngine.init scenarioAnalysis "PLA"
        (some scenarioOptions)).subtotal = 13.10 ∧
    (calculate_comprehensive_quote PricingEngine.init scenarioAnalysis "PLA"
        (some scenarioOptions)).overhead_cost = 1.31 ∧
    (calculate_comprehensive_quote PricingEngine.init scenarioAnalysis "PLA"
        (some scenarioOptions)).subtotal +
      (calculate_comprehensive_quote PricingEngine.init scenarioAnalysis "PLA"
        (some scenarioOptions)).overhead_cost = 14.41 ∧
    (calculate_comprehensive_quote PricingEngine.init scenarioAnalysis "PLA"
        (some scenarioOptions)).profit_margin = 2.882 ∧
    (calculate_comprehensive_quote PricingEngine.init scenarioAnalysis "PLA"
        (some scenarioOptions)).total_cost = 17.292 ∧
    |(calculate_comprehensive_quote PricingEngine.init scenarioAnalysis "PLA"
        (some scenarioOptions)).total_cost - 17.29| < 0.005 := by
  rw [calculate_eq_quoteResultOf PricingEngine.init scenarioAnalysis "PLA"
    (some scenarioOptions) plaProfile lookup_PLA_init 50.0 120 65 1 rfl rfl rfl rfl]
  rw [norm_PLA]
  simp only [quoteResultOf, lookup_PLA_init, plaProfile, PricingEngine.init]
  simp +decide only [pyTruthy, pyGet, scenarioOptions, List.lookup, Option.getD]
  norm_num [abs_lt]

/-- Counterexample to C3: on the claimed input, the engine's profit margin
rounds to 2.88 (not 2.68) and its total cost rounds to 17.29 (not 16.09). -/
theorem response_rounding_claim_false :
    round2 ((calculate_comprehensive_quote PricingEngine.init scenarioAnalysis "PLA"
        (some scenarioOptions)).profit_margin) ≠ 2.68 ∧
    round2 ((calculate_comprehensive_quote PricingEngine.init scenarioAnalysis "PLA"
        (some scenarioOptions)).total_cost) ≠ 16.09 := by
  rw [calculate_eq_quoteResultOf PricingEngine.init scenarioAnalysis "PLA"
    (some scenarioOptions) plaProfile lookup_PLA_init 50.0 120 65 1 rfl rfl rfl rfl]
  rw [norm_PLA]
  simp only [quoteResultOf, lookup_PLA_init, plaProfile, PricingEngine.init]
  simp +decide only [pyTruthy, pyGet, scenarioOptions, List.lookup, Option.getD]
  norm_num [round2, roundHalfEven]

/-- Claim C3 as amended (functional correctness): on the input
`{material_type=PLA, filament_used_grams=50.0, print_time_minutes=120,
complexity_score=65, quantity=1, rush_order=false}` the response-boundary
rounded values are `success=true`, `material_cost=2.50`, `time_cost=10.00`,
`complexity_adjustment=0.60`, `overhead_cost=1.31`, `profit_margin=2.88`,
`subtotal=13.10`, `total_cost=17.29`. -/
theorem response_boundary_rounded_values :
    (calculate_comprehensive_quote PricingEngine.init scenarioAnalysis "PLA"
        (some scenarioOptions)).success = true ∧
    round2 ((calculate_comprehensive_quote PricingEngine.init scenarioAnalysis "PLA"
        (some scenarioOptions)).material_cost) = 2.50 ∧
    round2 ((calculate_comprehensive_quote PricingEngine.init scenarioAnalysis "PLA"
        (some scenarioOptions)).time_cost) = 10.00 ∧
    round2 ((calculate_comprehensive_quote PricingEngine.init scenarioAnalysis "PLA"
        (some scenarioOptions)).complexity_adjustment) = 0.60 ∧
    round2 ((calculate_comprehensive_quote PricingEngine.init scenarioAnalysis "PLA"
        (some scenarioOptions)).overhead_cost) = 1.31 ∧
    round2 ((calculate_comprehensive_quote PricingEngine.init scenarioAnalysis "PLA"
        (some scenarioOptions)).profit_margin) = 2.88 ∧
    round2 ((calculate_comprehensive_quote PricingEngine.init scenarioAnalysis "PLA"
        (some scenarioOptions)).subtotal) = 13.10 ∧
    round2 ((calculate_comprehensive_quote PricingEngine.init scenarioAnalysis "PLA"
        (some scenarioOptions)).total_cost) = 17.29 := by
  rw [calculate_eq_quoteResultOf PricingEngine.init scenarioAnalysis "PLA"
    (some scenarioOptions) plaProfile lookup_PLA_init 50.0 120 65 1 rfl rfl rfl rfl]
  rw [norm_PLA]
  simp only [quoteResultOf, lookup_PLA_init, plaProfile, PricingEngine.init]
  simp +decide only [pyTruthy, pyGet, scenarioOptions, List.lookup, Option.getD]
  norm_num [round2, roundHalfEven]

/-- Claim C4 (functional correctness): material resolution equals the
spec-worded rule — uppercased exact match, else first catalog key (order
PLA, ABS, PETG, TPU) contained in the uppercased input, else the PLA
default; in particular "PLA Basic" and "unknown-xyz" both resolve to PLA,
and every input resolves (no error). -/
theorem material_resolution_matches_spec :
    (∀ s : String, normalize_material_type PricingEngine.init s = resolveSpec s) ∧
    normalize_material_type PricingEngine.init "PLA Basic" = "PLA" ∧
    normalize_material_type PricingEngine.init "unknown-xyz" = "PLA" := by
  refine ⟨?_, by decide, by decide⟩
  intro s
  unfold normalize_material_type resolveSpec
  by_cases h1 : pyUpper s = "PLA"
  · simp only [h1]; decide
  by_cases h2 : pyUpper s = "ABS"
  · simp only [h2]; decide
  by_cases h3 : pyUpper s = "PETG"
  · simp only [h3]; decide
  by_cases h4 : pyUpper s = "TPU"
  · simp only [h4]; decide
  have e1 : (pyUpper s == "PLA") = false := beq_eq_false_iff_ne.mpr h1
  have e2 : (pyUpper s == "ABS") = false := beq_eq_false_iff_ne.mpr h2
  have e3 : (pyUpper s == "PETG") = false := beq_eq_false_iff_ne.mpr h3
  have e4 : (pyUpper s == "TPU") = false := beq_eq_false_iff_ne.mpr h4
  simp [e1, e2, e3, e4, h1, h2, h3, h4, List.lookup, firstKeyMatch,
    PricingEngine.init, List.map]
  split_ifs <;> rfl

/-- Claim C5 (functional correctness): the quantity discount is a step
function of the quantity — 10% from 10 units, 5% from 5 units, none below —
visible in the subtotal; on the scenario base cost 13.10, quantity 4 gets no
discount, 5 and 9 get 5%, 10 gets 10%. -/
theorem quantity_discount_step_function (fv tv sv qv : ℚ) (r : Bool) (m : String) :
    ((calculate_comprehensive_quote PricingEngine.init (analysisOf fv tv sv) m
        (some (optionsOf qv r))).subtotal =
      ((calculate_comprehensive_quote PricingEngine.init (analysisOf fv tv sv) m
          (some (optionsOf qv r))).material_cost +
        (calculate_comprehensive_quote PricingEngine.init (analysisOf fv tv sv) m
          (some (optionsOf qv r))).time_cost +
        (calculate_comprehensive_quote PricingEngine.init (analysisOf fv tv sv) m
          (some (optionsOf qv r))).complexity_adjustment) * qv *
        (1 - (if 10 ≤ qv then 0.10 else if 5 ≤ qv then 0.05 else (0:ℚ)))) ∧
    (calculate_comprehensive_quote PricingEngine.init scenarioAnalysis "PLA"
        (some (optionsOf 4 false))).subtotal = 13.10 * 4 * (1 - 0) ∧
    (calculate_comprehensive_quote PricingEngine.init scenarioAnalysis "PLA"
        (some (optionsOf 5 false))).subtotal = 13.10 * 5 * (1 - 0.05) ∧
    (calculate_comprehensive_quote PricingEngine.init scenarioAnalysis "PLA"
        (some (optionsOf 9 false))).subtotal = 13.10 * 9 * (1 - 0.05) ∧
    (calculate_comprehensive_quote PricingEngine.init scenarioAnalysis "PLA"
        (some (optionsOf 10 false))).subtotal = 13.10 * 10 * (1 - 0.10) := by
  refine ⟨?_, ?_, ?_, ?_, ?_⟩
  · rw [calculate_on_builders]
    simp only [quoteResultOf]
  all_goals {
    first
    | (rw [calculate_eq_quoteResultOf PricingEngine.init scenarioAnalysis "PLA"
          (some (optionsOf 4 false)) plaProfile lookup_PLA_init 50.0 120 65 4 rfl rfl rfl rfl])
    | (rw [calculate_eq_quoteResultOf PricingEngine.init scenarioAnalysis "PLA"
          (some (optionsOf 5 false)) plaProfile lookup_PLA_init 50.0 120 65 5 rfl rfl rfl rfl])
    | (rw [calculate_eq_quoteResultOf PricingEngine.init scenarioAnalysis "PLA"
          (some (optionsOf 9 false)) plaProfile lookup_PLA_init 50.0 120 65 9 rfl rfl rfl rfl])
    | (rw [calculate_eq_quoteResultOf PricingEngine.init scenarioAnalysis "PLA"
          (some (optionsOf 10 false)) plaProfile lookup_PLA_init 50.0 120 65 10 rfl rfl rfl rfl])
    rw [norm_PLA]
    simp only [quoteResultOf, lookup_PLA_init, plaProfile, PricingEngine.init]
    norm_num [pyTruthy, pyGet, optionsOf, List.lookup]
  }

/-- Claim C6 (functional correctness): the rush surcharge scales only the
time-cost component — material cost, time cost and subtotal are unchanged by
the rush flag, the rush total equals
`(subtotal + overhead + time_cost * quantity * 0.5) * 1.2`, and without rush
the surcharge term is 0. -/
theorem rush_surcharge_scales_time_only (fv tv sv qv : ℚ) (m : String) :
    ((calculate_comprehensive_quote PricingEngine.init (analysisOf fv tv sv) m
        (some (optionsOf qv true))).material_cost =
      (calculate_comprehensive_quote PricingEngine.init (analysisOf fv tv sv) m
        (some (optionsOf qv false))).material_cost) ∧
    ((calculate_comprehensive_quote PricingEngine.init (analysisOf fv tv sv) m
        (some (optionsOf qv true))).time_cost =
      (calculate_comprehensive_quote PricingEngine.init (analysisOf fv tv sv) m
        (some (optionsOf qv false))).time_cost) ∧
    ((calculate_comprehensive_quote PricingEngine.init (analysisOf fv tv sv) m
        (some (optionsOf qv true))).subtotal =
      (calculate_comprehensive_quote PricingEngine.init (analysisOf fv tv sv) m
        (some (optionsOf qv false))).subtotal) ∧
    ((calculate_comprehensive_quote PricingEngine.init (analysisOf fv tv sv) m
        (some (optionsOf qv true))).total_cost =
      ((calculate_comprehensive_quote PricingEngine.init (analysisOf fv tv sv) m
          (some (optionsOf qv true))).subtotal +
        (calculate_comprehensive_quote PricingEngine.init (analysisOf fv tv sv) m
          (some (optionsOf qv true))).overhead_cost +
        (calculate_comprehensive_quote PricingEngine.init (analysisOf fv tv sv) m
          (some (optionsOf qv true))).time_cost * qv * 0.5) * (1 + 0.20)) ∧
    ((calculate_comprehensive_quote PricingEngine.init (analysisOf fv tv sv) m
        (some (optionsOf qv false))).total_cost =
      ((calculate_comprehensive_quote PricingEngine.init (analysisOf fv tv sv) m
          (some (optionsOf qv false))).subtotal +
        (calculate_comprehensive_quote PricingEngine.init (analysisOf fv tv sv) m
          (some (optionsOf qv false))).overhead_cost + 0) * (1 + 0.20)) := by
  rw [calculate_on_builders fv tv sv qv true m, calculate_on_builders fv tv sv qv false m]
  simp only [quoteResultOf, if_true, if_false]
  split_ifs <;>
    first
      | (exfalso; assumption)
      | exact ⟨by ring, by ring, by ring, by ring, by ring⟩

/-- Claim C7 (error handling): the engine never raises past its boundary —
any exception in the `try:` body is returned as a `success=False` result
with a descriptive error message. -/
theorem exceptions_become_failure_result (a : PyDict) (m : String)
    (o : Option PyDict) (msg : String)
    (h : calcBody PricingEngine.init a m o = .error msg) :
    calculate_comprehensive_quote PricingEngine.init a m o =
      { success := false,
        error_message := some ("Pricing calculation failed: " ++ msg) } := by
  unfold calculate_comprehensive_quote
  rw [h]

/-- Witness for C7: a string-valued `filament_used_grams` raises a
`TypeError` inside the body, and the caller sees a structured failure. -/
theorem exceptions_become_failure_result_witness :
    calcBody PricingEngine.init [("filament_used_grams", .str "fifty")] "PLA"
        Option.none = .error "unsupported operand type(s) for *" ∧
    calculate_comprehensive_quote PricingEngine.init
        [("filament_used_grams", .str "fifty")] "PLA" Option.none =
      { success := false,
        error_message :=
          some "Pricing calculation failed: unsupported operand type(s) for *" } := by
  refine ⟨rfl, ?_⟩
  have := exceptions_become_failure_result [("filament_used_grams", .str "fifty")]
    "PLA" Option.none "unsupported operand type(s) for *" rfl
  simpa using this

/-- Claim C8 (determinism/idempotence): two calls on identical inputs,
against engines carrying the state `__init__` constructs, return identical
results — the computation reads nothing but its arguments and the
constructor-set constants. -/
theorem calculate_deterministic (e₁ e₂ : PricingEngine)
    (h₁ : e₁ = PricingEngine.init) (h₂ : e₂ = PricingEngine.init)
    (a : PyDict) (m : String) (o : Option PyDict) :
    calculate_comprehensive_quote e₁ a m o = calculate_comprehensive_quote e₂ a m o := by
  rw [h₁, h₂]

/-- Witness for C8: two freshly initialized engines agree on the scenario
input. -/
theorem calculate_deterministic_witness :
    PricingEngine.init = PricingEngine.init ∧
    calculate_comprehensive_quote PricingEngine.init scenarioAnalysis "PLA"
        (some scenarioOptions) =
      calculate_comprehensive_quote PricingEngine.init scenarioAnalysis "PLA"
        (some scenarioOptions) :=
  ⟨rfl, calculate_deterministic PricingEngine.init PricingEngine.init rfl rfl
    scenarioAnalysis "PLA" (some scenarioOptions)⟩

/-- Claim C9 (functional correctness): with nonnegative filament and time,
complexity between 0 and 100 and quantity at least 1, the quote succeeds and
its total cost is nonnegative, for every material string. -/
theorem successful_total_cost_nonneg (fv tv sv qv : ℚ) (r : Bool) (m : String)
    (hf : 0 ≤ fv) (ht : 0 ≤ tv) (hs0 : 0 ≤ sv) (hs1 : sv ≤ 100) (hq : 1 ≤ qv) :
    (calculate_comprehensive_quote PricingEngine.init (analysisOf fv tv sv) m
        (some (optionsOf qv r))).success = true ∧
    0 ≤ (calculate_comprehensive_quote PricingEngine.init (analysisOf fv tv sv) m
        (some (optionsOf qv r))).total_cost := by
  rw [calculate_on_builders]
  refine ⟨rfl, ?_⟩
  obtain ⟨hc, hm⟩ := info_bounds (normalize_material_type PricingEngine.init m)
  simp only [quoteResultOf]
  set cpg := ((List.lookup (normalize_material_type PricingEngine.init m)
      PricingEngine.init.material_catalog).getD plaProfile).cost_per_gram with hcpg
  set mult := ((List.lookup (normalize_material_type PricingEngine.init m)
      PricingEngine.init.material_catalog).getD plaProfile).machine_cost_multiplier with hmult
  have htc : 0 ≤ tv / 60.0 * 5.00 * mult :=
    mul_nonneg (mul_nonneg (div_nonneg ht (by norm_num)) (by norm_num)) hm
  have hbase : 0 ≤ fv * cpg + tv / 60.0 * 5.00 * mult +
      tv / 60.0 * 5.00 * mult * (sv / 50.0 - 1.0) * 0.2 := by
    nlinarith [mul_nonneg hf hc, mul_nonneg htc hs0, htc]
  have hq0 : (0:ℚ) ≤ qv := le_trans zero_le_one hq
  have hbq : 0 ≤ (fv * cpg + tv / 60.0 * 5.00 * mult +
      tv / 60.0 * 5.00 * mult * (sv / 50.0 - 1.0) * 0.2) * qv := mul_nonneg hbase hq0
  have htq : 0 ≤ tv / 60.0 * 5.00 * mult * qv := mul_nonneg htc hq0
  split_ifs <;> nlinarith [hbq, htq]

/-- Witness for C9: the scenario input satisfies the bounds and yields a
nonnegative total. -/
theorem successful_total_cost_nonneg_witness :
    ((0:ℚ) ≤ 50.0 ∧ (0:ℚ) ≤ 120 ∧ (0:ℚ) ≤ 65 ∧ (65:ℚ) ≤ 100 ∧ (1:ℚ) ≤ 1) ∧
    ((calculate_comprehensive_quote PricingEngine.init (analysisOf 50.0 120 65) "PLA"
        (some (optionsOf 1 false))).success = true ∧
     0 ≤ (calculate_comprehensive_quote PricingEngine.init (analysisOf 50.0 120 65) "PLA"
        (some (optionsOf 1 false))).total_cost) :=
  ⟨by norm_num, successful_total_cost_nonneg 50.0 120 65 1 false "PLA" (by norm_num)
    (by norm_num) (by norm_num) (by norm_num) (by norm_num)⟩

/-- Claim C10 (implicit, error handling): when the analysis dictionary lacks
all three read fields and the options carry neither quantity nor rush flag,
the engine silently substitutes the defaults (50 g, 120 min, complexity 50,
quantity 1, no rush), succeeds, and returns a result indistinguishable from
one computed on explicitly supplied default values. -/
theorem missing_inputs_use_defaults (a : PyDict) (m : String) (o : Option PyDict)
    (h1 : List.lookup "filament_used_grams" a = Option.none)
    (h2 : List.lookup "print_time_minutes" a = Option.none)
    (h3 : List.lookup "complexity_score" a = Option.none)
    (h4 : List.lookup "quantity" (o.getD []) = Option.none)
    (h5 : List.lookup "rush_order" (o.getD []) = Option.none) :
    (calculate_comprehensive_quote PricingEngine.init a m o).success = true ∧
    calculate_comprehensive_quote PricingEngine.init a m o =
      calculate_comprehensive_quote PricingEngine.init (analysisOf 50.0 120.0 50) m
        (some (optionsOf 1 false)) := by
  have hf : pyNum? (pyGet a "filament_used_grams" (.num 50.0)) = some 50.0 := by
    simp [pyGet, h1, pyNum?]
  have ht : pyNum? (pyGet a "print_time_minutes" (.num 120.0)) = some 120.0 := by
    simp [pyGet, h2, pyNum?]
  have hs : pyNum? (pyGet a "complexity_score" (.num 50)) = some 50 := by
    simp [pyGet, h3, pyNum?]
  have hq : pyNum? (pyGet (o.getD []) "quantity" (.num 1)) = some 1 := by
    simp [pyGet, h4, pyNum?]
  rw [calculate_eq_quoteResultOf PricingEngine.init a m o plaProfile lookup_PLA_init
    50.0 120.0 50 1 hf ht hs hq]
  rw [calculate_on_builders 50.0 120.0 50 1 false m]
  constructor
  · rfl
  · simp [pyGet, h4, h5, pyTruthy]
    rfl

/-- Witness for C10: the fully empty call — no analysis fields, no options
dictionary at all — succeeds and equals the explicitly defaulted call. -/
theorem missing_inputs_use_defaults_witness :
    (List.lookup "filament_used_grams" ([] : PyDict) = Option.none ∧
     List.lookup "print_time_minutes" ([] : PyDict) = Option.none ∧
     List.lookup "complexity_score" ([] : PyDict) = Option.none ∧
     List.lookup "quantity" ((Option.none : Option PyDict).getD []) = Option.none ∧
     List.lookup "rush_order" ((Option.none : Option PyDict).getD []) = Option.none) ∧
    ((calculate_comprehensive_quote PricingEngine.init [] "PLA" Option.none).success = true ∧
     calculate_comprehensive_quote PricingEngine.init [] "PLA" Option.none =
       calculate_comprehensive_quote PricingEngine.init (analysisOf 50.0 120.0 50) "PLA"
         (some (optionsOf 1 false))) :=
  ⟨⟨rfl, rfl, rfl, rfl, rfl⟩,
   missing_inputs_use_defaults [] "PLA" Option.none rfl rfl rfl rfl rfl⟩

end PricingSpec
